import Mathlib

/-!
Verification of the algorithm-service task lifecycle engine.

This file gives a shallow embedding, in Lean 4, of the parts of the
service relevant to the task lifecycle: the SQLite-backed task store
(infrastructure/task_store.py), the in-memory progress manager and its
DB writer (infrastructure/progress_manager.py), the dispatcher's
cancellation path (core/dispatcher.py), the process manager
(core/process_manager.py), the result reporter
(infrastructure/rpc_client.py) and the Python argument binding of the
algorithm execution context (core/framework.py).

Stores and dictionaries are modelled as association lists; machine time
is an explicit `now : Int` parameter (milliseconds); fallible external
effects (SQLite "database locked" errors, file writes, remote delivery)
are modelled as explicit boolean oracles.
-/

namespace AlgoService

/-! ## Task store rows (table `tasks` in task_store.py) -/

/-- One row of the `tasks` table (task_store.py, `_ensure_db`). -/
structure TaskRow where
  task_id : String
  scheme_code : String
  status : String
  percentage : Int
  message : String
  error_message : String
  data_ref : String
  created_at : Int
  updated_at : Int
deriving Repr, DecidableEq

/-- The `tasks` table: a list of rows, keyed by `task_id` (primary key). -/
abbrev Store := List TaskRow

/-- Lookup of the row with the given `task_id` (SELECT ... WHERE task_id = ?). -/
def findRow : Store → String → Option TaskRow
  | [], _ => none
  | r :: rest, tid => if r.task_id == tid then some r else findRow rest tid

/-- Apply an update to the (unique) row with the given `task_id`
(UPDATE ... WHERE task_id = ?). -/
def updateRow : Store → String → (TaskRow → TaskRow) → Store
  | [], _, _ => []
  | r :: rest, tid, f =>
      if r.task_id == tid then f r :: rest else r :: updateRow rest tid f

/-- The fresh row inserted by `TaskStore.upsert_task_start`:
status=RUNNING, percentage=0, message="Initializing", error_message="". -/
def startRow (now : Int) (tid scheme_code data_ref : String) : TaskRow :=
  { task_id := tid
    scheme_code := scheme_code
    status := "RUNNING"
    percentage := 0
    message := "Initializing"
    error_message := ""
    data_ref := data_ref
    created_at := now
    updated_at := now }

/-- `TaskStore.upsert_task_start`: INSERT ... ON CONFLICT(task_id) DO UPDATE,
with status=RUNNING, percentage=0, message="Initializing",
error_message=""; `created_at` is only written on insert. -/
def upsert_task_start (now : Int) (tid scheme_code data_ref : String) (store : Store) : Store :=
  match findRow store tid with
  | some _ =>
      updateRow store tid (fun old =>
        { old with
            scheme_code := scheme_code
            status := "RUNNING"
            percentage := 0
            message := "Initializing"
            error_message := ""
            data_ref := data_ref
            updated_at := now })
  | none => store ++ [startRow now tid scheme_code data_ref]

/-- `TaskStore.update_progress`: UPDATE percentage/message/status/updated_at
WHERE task_id = ?; when the UPDATE matches no row (`cursor.rowcount == 0`)
the source calls `upsert_task_start(task_id, scheme_code="", data_ref="")`
and commits, without re-running the UPDATE. -/
def update_progress (now : Int) (tid : String) (percentage : Int)
    (message : String) (status : String) (store : Store) : Store :=
  match findRow store tid with
  | some _ =>
      updateRow store tid (fun old =>
        { old with
            percentage := percentage
            message := message
            status := status
            updated_at := now })
  | none => upsert_task_start now tid "" "" store

/-- The row update performed by `TaskStore.finish_task` on an existing row:
percentage=100 and the given message/status/error_message. -/
def finishRowUpdate (now : Int) (status message error_message : String)
    (old : TaskRow) : TaskRow :=
  { old with
      percentage := 100
      message := message
      status := status
      error_message := error_message
      updated_at := now }

/-- `TaskStore.finish_task`: UPDATE the terminal fields WHERE task_id = ?;
when no row matches, the source calls `upsert_task_start(task_id, "", "")`
and then calls itself again. The recursive call always finds the row the
upsert just created, so it is unrolled once here. -/
def finish_task (now : Int) (tid status message error_message : String)
    (store : Store) : Store :=
  match findRow store tid with
  | some _ => updateRow store tid (finishRowUpdate now status message error_message)
  | none =>
      let created := upsert_task_start now tid "" "" store
      match findRow created tid with
      | some _ => updateRow created tid (finishRowUpdate now status message error_message)
      | none => created

/-- Equality of rows ignoring the `created_at`/`updated_at` timestamp columns. -/
def rowEqIgnoringTimestamps (a b : TaskRow) : Bool :=
  a.task_id == b.task_id
    && a.scheme_code == b.scheme_code
    && a.status == b.status
    && a.percentage == b.percentage
    && a.message == b.message
    && a.error_message == b.error_message
    && a.data_ref == b.data_ref

/-- Pointwise equality of stores ignoring timestamp columns. -/
def storeEqIgnoringTimestamps : Store → Store → Bool
  | [], [] => true
  | a :: as_, b :: bs => rowEqIgnoringTimestamps a b && storeEqIgnoringTimestamps as_ bs
  | _, _ => false

/-- The lifecycle-observable columns of a row: status, percentage, message
and error_message. -/
def rowObservable (r : TaskRow) : String × Int × String × String :=
  (r.status, r.percentage, r.message, r.error_message)

/-! ## Progress manager: in-memory status map (progress_manager.py) -/

/-- One value of the shared status dictionary (`ProgressManager._status`).
Python dictionaries hold only the keys that have been written, so each
field is optional; a missing key is `none`. -/
structure StatusEntry where
  task_id : Option String := none
  scheme_code : Option String := none
  status : Option String := none
  percentage : Option Int := none
  message : Option String := none
  data_ref : Option String := none
  updated_at : Option Int := none
deriving Repr, DecidableEq

/-- A status entry with no keys set: the Python empty dict `{}`, which is
what `get_task` returns for an unknown task and which is falsy. -/
def emptyEntry : StatusEntry := {}

/-- The shared status map `task_id -> dict`. -/
abbrev StatusMap := List (String × StatusEntry)

/-- `ProgressManager.get_task`: `dict(store.get(task_id, {}))`. -/
def getTaskEntry : StatusMap → String → StatusEntry
  | [], _ => emptyEntry
  | kv :: rest, tid => if kv.fst == tid then kv.snd else getTaskEntry rest tid

/-- Dictionary assignment `store[task_id] = entry`. -/
def setTaskEntry : StatusMap → String → StatusEntry → StatusMap
  | [], tid, e => [(tid, e)]
  | kv :: rest, tid, e =>
      if kv.fst == tid then (tid, e) :: rest else kv :: setTaskEntry rest tid e

/-- Whether an optional status value is one of the terminal statuses
`("SUCCESS", "FAILED", "CANCELLED")`. -/
def isTerminalOpt (s : Option String) : Bool :=
  s == some "SUCCESS" || s == some "FAILED" || s == some "CANCELLED"

/-- `ProgressManager.register_task`: write the initial QUEUED entry. -/
def register_task (now : Int) (m : StatusMap) (tid scheme_code data_ref : String) : StatusMap :=
  let current := getTaskEntry m tid
  setTaskEntry m tid
    { current with
        task_id := some tid
        scheme_code := some scheme_code
        status := some "QUEUED"
        percentage := some 0
        message := some "Queued"
        data_ref := some data_ref
        updated_at := some now }

/-- `ProgressManager.record_progress`: a no-op when the current status is
terminal; otherwise writes percentage/message/updated_at with status
RUNNING, except that an existing CANCEL_REQUESTED status is kept. -/
def record_progress (now : Int) (m : StatusMap) (tid : String)
    (percent : Int) (message : String) : StatusMap :=
  let current := getTaskEntry m tid
  if isTerminalOpt current.status then m
  else
    let status := if current.status == some "CANCEL_REQUESTED" then "CANCEL_REQUESTED" else "RUNNING"
    setTaskEntry m tid
      { current with
          percentage := some percent
          message := some message
          status := some status
          updated_at := some now }

/-- `ProgressManager.mark_finished`: write percentage=100 and the given
terminal status/message unconditionally. -/
def mark_finished (now : Int) (m : StatusMap) (tid status message : String) : StatusMap :=
  let current := getTaskEntry m tid
  setTaskEntry m tid
    { current with
        percentage := some 100
        message := some message
        status := some status
        updated_at := some now }

/-- `ProgressManager.request_cancel`: write status=CANCEL_REQUESTED and the
given message; percentage is left untouched. -/
def request_cancel (now : Int) (m : StatusMap) (tid message : String) : StatusMap :=
  let current := getTaskEntry m tid
  setTaskEntry m tid
    { current with
        message := some message
        status := some "CANCEL_REQUESTED"
        updated_at := some now }

/-! ## Progress manager: per-task progress channels -/

/-- A progress event as put on a per-task channel
(`{task_id, percentage, message, timestamp}`). -/
structure ProgressEvent where
  task_id : String
  percentage : Int
  message : String
  timestamp : Int
deriving Repr, DecidableEq

/-- The per-task channels `ProgressManager._queues`; each channel is a FIFO
list, `put` appends at the end. -/
abbrev QueueMap := List (String × List ProgressEvent)

/-- Channel lookup `self._queues.get(task_id)`. -/
def lookupQueue : QueueMap → String → Option (List ProgressEvent)
  | [], _ => none
  | kv :: rest, tid => if kv.fst == tid then some kv.snd else lookupQueue rest tid

/-- Channel assignment `self._queues[task_id] = q`. -/
def setQueue : QueueMap → String → List ProgressEvent → QueueMap
  | [], tid, q => [(tid, q)]
  | kv :: rest, tid, q =>
      if kv.fst == tid then (tid, q) :: rest else kv :: setQueue rest tid q

/-- `ProgressManager.register_watcher`: when a channel already exists it is
returned unchanged; otherwise a fresh channel is created and, when the
status map knows the task (`if status:` on the returned dict), one
synthetic event with the last-known percentage and message is put on it.
Returns the updated channel map and the returned channel contents. -/
def register_watcher (now : Int) (m : StatusMap) (qs : QueueMap)
    (tid : String) : QueueMap × List ProgressEvent :=
  match lookupQueue qs tid with
  | some q => (qs, q)
  | none =>
      let status := getTaskEntry m tid
      let q : List ProgressEvent :=
        if status == emptyEntry then []
        else [{ task_id := tid
                percentage := status.percentage.getD 0
                message := status.message.getD ""
                timestamp := now }]
      (setQueue qs tid q, q)

/-- `ProgressManager.ensure_queue`: create an empty channel when none
exists; never emits an event. -/
def ensure_queue (qs : QueueMap) (tid : String) : QueueMap × List ProgressEvent :=
  match lookupQueue qs tid with
  | some q => (qs, q)
  | none => (setQueue qs tid [], [])

/-! ## Process manager (process_manager.py) -/

/-- A managed subprocess handle (`ManagedProcess`): whether the OS process
is still alive and whether cancellation was requested for it. -/
structure ProcH where
  alive : Bool
  cancel_requested : Bool
deriving Repr, DecidableEq

/-- How a subprocess ended: natural return, cooperative cancel (the worker
raised on a cancel flag), SIGTERM, or SIGKILL. The monitor thread treats
all of them identically. -/
inductive ExitKind where
  | natural
  | cooperative
  | sigterm
  | sigkill
deriving Repr, DecidableEq

/-- `ProcessManager` state: the `task_id -> ManagedProcess` table, the
counting semaphore value, the shutdown flag, plus an instrumentation
counter of `self._semaphore.release()` calls. -/
structure PMState where
  processes : List (String × ProcH)
  semValue : Int
  shutdown : Bool
  releases : Nat
deriving Repr, DecidableEq

/-- `self._processes.get(task_id)`. -/
def lookupProc : List (String × ProcH) → String → Option ProcH
  | [], _ => none
  | kv :: rest, tid => if kv.fst == tid then some kv.snd else lookupProc rest tid

/-- `ProcessManager.submit`: reject when shut down; otherwise acquire the
semaphore (the blocking acquire always eventually succeeds, so it is one
decrement here), then fork. `spawnOk` says whether `Process(...).start()`
succeeds; on failure the except-branch releases the slot and returns
False. -/
def pmSubmit (st : PMState) (tid : String) (spawnOk : Bool) : PMState × Bool :=
  if st.shutdown then (st, false)
  else
    let acquired := { st with semValue := st.semValue - 1 }
    if spawnOk then
      ({ acquired with
           processes := acquired.processes ++ [(tid, { alive := true, cancel_requested := false })] },
       true)
    else
      ({ acquired with semValue := acquired.semValue + 1, releases := acquired.releases + 1 },
       false)

/-- The OS process for `tid` exits (in any of the four ways); its handle
becomes not-alive. -/
def pmProcessExit (st : PMState) (tid : String) (_k : ExitKind) : PMState :=
  { st with
      processes := st.processes.map (fun kv =>
        if kv.fst == tid then (kv.fst, { kv.snd with alive := false }) else kv) }

/-- `ProcessManager._monitor_process` after `join()` returns: when the
handle is missing the thread returns without releasing; otherwise the
finally-block runs `_cleanup` (pop the handle) and releases the
semaphore. -/
def pmMonitorFinish (st : PMState) (tid : String) : PMState :=
  match lookupProc st.processes tid with
  | none => st
  | some _ =>
      { st with
          processes := st.processes.filter (fun kv => kv.fst != tid)
          semValue := st.semValue + 1
          releases := st.releases + 1 }

/-- The full lifecycle of one `submit` call: fork (or fail to), and when a
process was started, its exit followed by its monitor thread completing. -/
def pmLifecycle (st : PMState) (tid : String) (spawnOk : Bool) (k : ExitKind) : PMState :=
  let step := pmSubmit st tid spawnOk
  if step.snd then pmMonitorFinish (pmProcessExit step.fst tid k) tid else step.fst

/-- `ProcessManager.is_running`: handle present and process alive. -/
def pmIsRunning (procs : List (String × ProcH)) (tid : String) : Bool :=
  match lookupProc procs tid with
  | none => false
  | some h => h.alive

/-- The result dictionary of `ProcessManager.cancel` (the `pid` key is
omitted from the model). -/
structure CancelResult where
  accepted : Bool
  message : String
  status : String
deriving Repr, DecidableEq

/-- `ProcessManager.cancel`: NOT_FOUND when no handle exists, FINISHED when
the process already exited, otherwise set `cancel_requested` and signal
the process (KILLED for force, TERMINATING for graceful). The ERROR
branches for a failing OS signal are not modelled; the grace-period
escalator thread only resignals later and is outside this state step. -/
def pmCancel (procs : List (String × ProcH)) (tid : String) (force : Bool) :
    CancelResult × List (String × ProcH) :=
  match lookupProc procs tid with
  | none =>
      ({ accepted := false, message := "Task not found or already finished", status := "NOT_FOUND" },
       procs)
  | some h =>
      if !h.alive then
        ({ accepted := false, message := "Task already finished", status := "FINISHED" }, procs)
      else
        let procs2 := procs.map (fun kv =>
          if kv.fst == tid then (kv.fst, { kv.snd with cancel_requested := true }) else kv)
        if force then
          ({ accepted := true, message := "Force killed", status := "KILLED" }, procs2)
        else
          ({ accepted := true, message := "SIGTERM sent, will force-kill after 5.0s", status := "TERMINATING" },
           procs2)

/-! ## Dispatcher cancellation path (dispatcher.py, `TaskDispatcher.cancel_task`) -/

/-- A `concurrent.futures` future held in `TaskDispatcher._tasks`:
`cancelOk` says whether `future.cancel()` succeeds (the job had not
started yet). -/
structure FutureH where
  cancelOk : Bool
deriving Repr, DecidableEq

/-- One call of the result sink `reporter.send_result(task_id, status, error)`. -/
structure SinkCall where
  task_id : String
  status : String
  error : String
deriving Repr, DecidableEq

/-- Python `str.upper()` restricted to ASCII, which is all the status
strings ever contain. (Defined by structural recursion over the
character list so that it evaluates inside the kernel.) -/
def pyUpper (s : String) : String := String.mk (s.data.map Char.toUpper)

/-- `self._tasks.get(task_id)`. -/
def lookupFuture : List (String × FutureH) → String → Option FutureH
  | [], _ => none
  | kv :: rest, tid => if kv.fst == tid then some kv.snd else lookupFuture rest tid

/-- The combined state touched by `TaskDispatcher.cancel_task`: the
progress-manager status map and channels, the dispatcher future table,
the process-manager handle table, the task store, and the calls made on
the result sink. -/
structure SysState where
  statusMap : StatusMap
  queues : QueueMap
  futures : List (String × FutureH)
  procs : List (String × ProcH)
  store : Store
  sinkCalls : List SinkCall
deriving Repr, DecidableEq

/-- `TaskDispatcher._mark_cancelled`: mark CANCELLED in the progress
manager, finish the store row as CANCELLED, and call the sink. -/
def markCancelled (now : Int) (st : SysState) (tid message : String) : SysState :=
  { st with
      statusMap := mark_finished now st.statusMap tid "CANCELLED" message
      store := finish_task now tid "CANCELLED" message "" st.store
      sinkCalls := st.sinkCalls ++ [{ task_id := tid, status := "CANCELLED", error := message }] }

/-- `TaskDispatcher.cancel_task`: reject when the last-known status is
terminal; else try `future.cancel()`; else, when the process manager
reports the task running, delegate to `ProcessManager.cancel` (KILLED is
marked cancelled at once; TERMINATING requests cancel in the manager and
the store, the asynchronous termination watcher thread being outside
this state step); else fall through to the cooperative fallback, which
requests cancel in the status map and writes
`update_progress(task_id, 0, "Cancel requested", status=CANCEL_REQUESTED)`
to the store. -/
def cancel_task (now : Int) (st : SysState) (tid : String) (force : Bool) :
    SysState × CancelResult :=
  let current := getTaskEntry st.statusMap tid
  let status := pyUpper (current.status.getD "")
  if status == "SUCCESS" || status == "FAILED" || status == "CANCELLED" then
    (st, { accepted := false, message := "Task already finished", status := status })
  else
    let futureCancelled :=
      match lookupFuture st.futures tid with
      | some f => f.cancelOk
      | none => false
    if futureCancelled then
      (markCancelled now st tid "Cancelled before start",
       { accepted := true, message := "Cancelled", status := "CANCELLED" })
    else if pmIsRunning st.procs tid then
      let step := pmCancel st.procs tid force
      let st2 := { st with procs := step.snd }
      if step.fst.accepted then
        if step.fst.status == "KILLED" then
          (markCancelled now st2 tid "Force killed",
           { accepted := true, message := "Force killed", status := "CANCELLED" })
        else
          ({ st2 with
               statusMap := request_cancel now st2.statusMap tid "Terminating"
               store := update_progress now tid 0 "Terminating" "CANCEL_REQUESTED" st2.store },
           { accepted := true, message := step.fst.message, status := "TERMINATING" })
      else (st2, step.fst)
    else
      ({ st with
           statusMap := request_cancel now st.statusMap tid "Cancel requested"
           store := update_progress now tid 0 "Cancel requested" "CANCEL_REQUESTED" st.store },
       { accepted := true, message := "Cancel requested", status := "CANCEL_REQUESTED" })

/-! ## DB writer (progress_manager.py, `ProgressManager.start_db_writer`) -/

/-- An event dictionary on the DB queue; missing keys are `none` and are
read back with the defaults used at each `event.get(...)` site. -/
structure DbEvent where
  op : Option String := none
  task_id : Option String := none
  status : Option String := none
  message : Option String := none
  error_message : Option String := none
  percentage : Option Int := none
deriving Repr, DecidableEq

/-- An item dequeued by the writer: either not a dict (skipped outright)
or an event dictionary. -/
inductive QueueItem where
  | notDict
  | ev (e : DbEvent)
deriving Repr, DecidableEq

/-- The writer-visible state: the task store plus the
`{"success": _, "fail": _, "last_error": _}` counters. -/
structure WriterState where
  store : Store
  successCount : Nat
  failCount : Nat
  lastError : String
deriving Repr, DecidableEq

/-- One application of an event to the task store: `finish` maps to
`finish_task`, `progress` to `update_progress`, any other op only logs a
warning. -/
def applyDbEvent (now : Int) (e : DbEvent) (store : Store) : Store :=
  if e.op == some "finish" then
    finish_task now (e.task_id.getD "") (e.status.getD "FAILED")
      (e.message.getD "Completed") (e.error_message.getD "") store
  else if e.op == some "progress" then
    update_progress now (e.task_id.getD "") (e.percentage.getD 0)
      (e.message.getD "") (e.status.getD "RUNNING") store
  else store

/-- The retry loop around one event. `raises i` says whether the i-th
attempt to touch the store raises. On success the success counter is
incremented and the loop breaks; on an exception `attempts` is
incremented and, once it reaches 3, the event is dropped, the failure
counter incremented and the last error recorded. `fuel` only bounds the
recursion; the loop is entered with `attempts = 0` and `fuel = 3`, which
the 3-attempt limit never exhausts. -/
def handleDbEventGo (now : Int) (e : DbEvent) (raises : Nat → Bool)
    (st : WriterState) : Nat → Nat → WriterState
  | _, 0 => st
  | attempts, fuel + 1 =>
      if raises attempts then
        if attempts + 1 ≥ 3 then
          { st with failCount := st.failCount + 1, lastError := "persist error" }
        else handleDbEventGo now e raises st (attempts + 1) fuel
      else
        { st with
            store := applyDbEvent now e st.store
            successCount := st.successCount + 1 }

/-- Processing of one dequeued item by the DB writer loop body. -/
def handleQueueItem (now : Int) (raises : Nat → Bool) (st : WriterState) :
    QueueItem → WriterState
  | .notDict => st
  | .ev e => handleDbEventGo now e raises st 0 3

/-- The writer loop over a finite prefix of the queue: each item carries
its own attempt-failure oracle; after an item is handled (applied,
skipped, or dropped) the writer continues with the next. -/
def runDbWriter (now : Int) : List (QueueItem × (Nat → Bool)) → WriterState → WriterState
  | [], st => st
  | item :: rest, st => runDbWriter now rest (handleQueueItem now item.snd st item.fst)

/-! ## Result reporter (rpc_client.py, `ResultReporterClient.send_result`) -/

/-- The observable effects of one `send_result` call. Two statements sit
outside every try-block and can raise out of the function:
`raisedMkdir` marks `result_dir.mkdir(parents=True, exist_ok=True)`
(an `OSError`, for instance a read-only filesystem or the result path
existing as a regular file), which aborts the call before anything else;
`raisedSerialize` marks `result_json = json.dumps(data, ...)`, evaluated
whenever `data is not None`, and `json.dumps` can raise (for example
`ValueError` on a circular structure, `default=_json_safe`
notwithstanding). -/
structure SendEffects where
  wroteFile : Bool
  loggedWriteError : Bool
  attemptedRemote : Bool
  loggedRemoteError : Bool
  raisedMkdir : Bool
  raisedSerialize : Bool
deriving Repr, DecidableEq

/-- `ResultReporterClient.send_result` over explicit effect oracles, in
source order: `mkdirRaises` — the unprotected `result_dir.mkdir` raises
and nothing further runs; `writeRaises` — the local artifact write
(inside the first try-block) raises, caught and logged;
`dataPresent`/`dataSerRaises` — `data is not None` and the unprotected
serialization of it for `result_json` raises; `hasStub` — a remote stub
is configured, without one the call returns right after payload
construction; `remoteRaises` — `stub.ReportResult` raises, caught and
logged. -/
def send_result (hasStub dataPresent mkdirRaises writeRaises dataSerRaises remoteRaises : Bool) :
    SendEffects :=
  if mkdirRaises then
    { wroteFile := false
      loggedWriteError := false
      attemptedRemote := false
      loggedRemoteError := false
      raisedMkdir := true
      raisedSerialize := false }
  else
    let wroteFile := !writeRaises
    let loggedWriteError := writeRaises
    if dataPresent && dataSerRaises then
      { wroteFile := wroteFile
        loggedWriteError := loggedWriteError
        attemptedRemote := false
        loggedRemoteError := false
        raisedMkdir := false
        raisedSerialize := true }
    else if !hasStub then
      { wroteFile := wroteFile
        loggedWriteError := loggedWriteError
        attemptedRemote := false
        loggedRemoteError := false
        raisedMkdir := false
        raisedSerialize := false }
    else
      { wroteFile := wroteFile
        loggedWriteError := loggedWriteError
        attemptedRemote := true
        loggedRemoteError := remoteRaises
        raisedMkdir := false
        raisedSerialize := false }

/-! ## Python call binding of the execution context (framework.py) -/

/-- Whether a Python call with `nPos` positional arguments and the keyword
argument names `kws` binds against a parameter list `ps` of required
positional-or-keyword parameters (no defaults, no var-args): every
keyword must name a parameter not already filled positionally, no
keyword may repeat, and every parameter must end up filled. -/
def pyBindOk (ps : List String) (nPos : Nat) (kws : List String) : Bool :=
  let remaining := ps.drop nPos
  decide (nPos ≤ ps.length)
    && (kws.eraseDups.length == kws.length)
    && kws.all (fun k => remaining.contains k)
    && remaining.all (fun p => kws.contains p)

/-- The parameter list of `AlgorithmContext.__init__` as written in
core/framework.py (`self` excluded). -/
def frameworkContextParams : List String :=
  ["task_id", "data_ref", "params", "reporter_stub", "logger"]

/-- The context constructor signature that the spec, the dispatcher call
sites, the plugins (which read `ctx.data`) and the repository's own unit
tests agree on. -/
def intendedContextParams : List String :=
  ["task_id", "params", "reporter_stub", "logger", "data"]

/-- The call made by `TaskDispatcher._safe_runner` (dispatcher.py line 381)
and by `_run_task_in_subprocess` (line 105):
`AlgorithmContext(task_id, params, progress_stub, logger, data=data)` —
four positional arguments and the keyword `data`. -/
def dispatcherCallPositional : Nat := 4

/-- The keyword-argument names of the dispatcher's context construction. -/
def dispatcherCallKeywords : List String := ["data"]

/-- The keyword-argument names used by tests/test_unit_framework.py in
`test_context_initialization` (all arguments passed by keyword). -/
def testCallKeywords : List String :=
  ["task_id", "params", "reporter_stub", "logger", "data"]

/-! ## Basic lemmas about the association-list operations -/

/-- Reading back a status entry that was just written. -/
theorem getTaskEntry_setTaskEntry (m : StatusMap) (tid : String) (e : StatusEntry) :
    getTaskEntry (setTaskEntry m tid e) tid = e := by
  induction m with
  | nil => simp [setTaskEntry, getTaskEntry]
  | cons kv rest ih =>
      cases hb : (kv.fst == tid) with
      | true => simp [setTaskEntry, getTaskEntry, hb]
      | false => simp [setTaskEntry, getTaskEntry, hb, ih]

/-- `updateRow` touches exactly the looked-up row, provided the update
keeps the primary key. -/
theorem findRow_updateRow (s : Store) (tid : String) (f : TaskRow → TaskRow)
    (hf : ∀ r, (f r).task_id = r.task_id) :
    findRow (updateRow s tid f) tid = (findRow s tid).map f := by
  induction s with
  | nil => simp [findRow, updateRow]
  | cons r rest ih =>
      cases hb : (r.task_id == tid) with
      | true => simp [findRow, updateRow, hb, hf r]
      | false => simp [findRow, updateRow, hb, ih]

/-- Appending a row to a store that does not contain the key. -/
theorem findRow_append_of_none (s : Store) (tid : String) (r : TaskRow)
    (h : findRow s tid = none) :
    findRow (s ++ [r]) tid = if r.task_id == tid then some r else none := by
  induction s with
  | nil => simp [findRow]
  | cons x rest ih =>
      cases hb : (x.task_id == tid) with
      | true => simp [findRow, hb] at h
      | false =>
          simp [findRow, hb] at h ⊢
          simpa using ih h

/-- Updating a store keyed past rows that do not match. -/
theorem updateRow_append_of_none (s : Store) (tid : String) (r : TaskRow)
    (f : TaskRow → TaskRow) (h : findRow s tid = none) :
    updateRow (s ++ [r]) tid f = s ++ [if r.task_id == tid then f r else r] := by
  induction s with
  | nil =>
      simp only [List.nil_append, updateRow]
      split <;> rfl
  | cons x rest ih =>
      cases hb : (x.task_id == tid) with
      | true => simp [findRow, hb] at h
      | false =>
          simp [findRow, hb] at h
          simp only [List.cons_append, updateRow, hb]
          simp [ih h]

/-- Every row is equal to itself ignoring timestamps. -/
theorem rowEqIgnoringTimestamps_self (r : TaskRow) :
    rowEqIgnoringTimestamps r r = true := by
  simp [rowEqIgnoringTimestamps]

/-- Two stores that share a prefix and end in one extra row each are equal
ignoring timestamps exactly when those rows are. -/
theorem storeEqIgnoringTimestamps_append_pair (s : Store) (a b : TaskRow) :
    storeEqIgnoringTimestamps (s ++ [a]) (s ++ [b]) = rowEqIgnoringTimestamps a b := by
  induction s with
  | nil => simp [storeEqIgnoringTimestamps]
  | cons x rest ih =>
      simp [storeEqIgnoringTimestamps, rowEqIgnoringTimestamps_self, ih]

/-- Lookup in a process table with the exit flag mapped over it. -/
theorem lookupProc_exitMap (l : List (String × ProcH)) (tid : String) :
    lookupProc (l.map (fun kv =>
        if kv.fst == tid then (kv.fst, { kv.snd with alive := false }) else kv)) tid
      = (lookupProc l tid).map (fun h => { h with alive := false }) := by
  induction l with
  | nil => simp [lookupProc]
  | cons kv rest ih =>
      cases hb : (kv.fst == tid) with
      | true => simp [lookupProc, hb]
      | false =>
          simp [lookupProc, hb]
          simpa using ih

/-- Reading back a channel that was just stored. -/
theorem lookupQueue_setQueue (qs : QueueMap) (tid : String) (q : List ProgressEvent) :
    lookupQueue (setQueue qs tid q) tid = some q := by
  induction qs with
  | nil => simp [setQueue, lookupQueue]
  | cons kv rest ih =>
      cases hb : (kv.fst == tid) with
      | true => simp [setQueue, lookupQueue, hb]
      | false => simp [setQueue, lookupQueue, hb, ih]

/-- Lookup past a process-table prefix that does not contain the key. -/
theorem lookupProc_append_of_none (l1 l2 : List (String × ProcH)) (tid : String)
    (h : lookupProc l1 tid = none) :
    lookupProc (l1 ++ l2) tid = lookupProc l2 tid := by
  induction l1 with
  | nil => simp
  | cons kv rest ih =>
      cases hb : (kv.fst == tid) with
      | true => simp [lookupProc, hb] at h
      | false =>
          simp [lookupProc, hb] at h ⊢
          exact ih h

/-! ## Claim theorems -/

/-- Claim C1 (code bug): the spec, the dispatcher call sites, the plugins
and the repository's own unit tests all treat the execution context as
`(task_id, params, data, reporter, logger)`, but the constructor written
in core/framework.py has the parameter list
`(task_id, data_ref, params, reporter_stub, logger)`. The dispatcher call
`AlgorithmContext(task_id, params, progress_stub, logger, data=data)`
does not bind against that parameter list (unexpected keyword `data`,
`logger` left unfilled), and neither does the unit test's all-keyword
call, while both bind against the intended parameter list; so every
per-task run raises `TypeError` at context construction and the
algorithm's `execute` is never reached. -/
theorem c1_context_constructor_mismatch :
    pyBindOk frameworkContextParams dispatcherCallPositional dispatcherCallKeywords = false
    ∧ pyBindOk frameworkContextParams 0 testCallKeywords = false
    ∧ pyBindOk intendedContextParams dispatcherCallPositional dispatcherCallKeywords = true := by
  decide

/-- Claim C2 (counterexample): a stored row that reached the terminal
status SUCCESS is changed by a subsequent `update_progress` call — its
status becomes RUNNING and its percentage 50. -/
theorem c2_counterexample :
    (findRow (finish_task 1000 "t1" "SUCCESS" "Completed" ""
        (upsert_task_start 500 "t1" "SCM-WF01" "ref" [])) "t1").map rowObservable
      = some ("SUCCESS", 100, "Completed", "")
    ∧ (findRow (update_progress 2000 "t1" 50 "restarted" "RUNNING"
        (finish_task 1000 "t1" "SUCCESS" "Completed" ""
          (upsert_task_start 500 "t1" "SCM-WF01" "ref" []))) "t1").map rowObservable
      = some ("RUNNING", 50, "restarted", "") := by
  decide

/-- Claim C2 (amended): the Task Store's `update_progress` and
`finish_task` overwrite an existing row's status, percentage, message
(and, for `finish_task`, error_message) unconditionally — in particular
a row holding a terminal status is still modified by subsequent calls;
the store itself enforces no terminal-state immutability. -/
theorem c2_store_overwrites_terminal
    (now : Int) (store : Store) (tid : String) (row : TaskRow)
    (pct : Int) (msg stat stat2 msg2 err2 : String)
    (hrow : findRow store tid = some row)
    (_hterm : isTerminalOpt (some row.status) = true) :
    findRow (update_progress now tid pct msg stat store) tid
        = some { row with percentage := pct, message := msg, status := stat, updated_at := now }
    ∧ findRow (finish_task now tid stat2 msg2 err2 store) tid
        = some (finishRowUpdate now stat2 msg2 err2 row) := by
  constructor
  · simp only [update_progress, hrow]
    rw [findRow_updateRow _ _ _ (by intro r; rfl), hrow]
    rfl
  · simp only [finish_task, hrow]
    rw [findRow_updateRow _ _ _ (by intro r; rfl), hrow]
    rfl

/-- Witness for the amended Claim C2 at a concrete SUCCESS row. -/
theorem c2_store_overwrites_terminal_witness :
    findRow (update_progress 2000 "t1" 50 "restarted" "RUNNING"
        [{ task_id := "t1", scheme_code := "SCM-WF01", status := "SUCCESS", percentage := 100,
           message := "Completed", error_message := "", data_ref := "ref",
           created_at := 500, updated_at := 1000 }]) "t1"
      = some { task_id := "t1", scheme_code := "SCM-WF01", status := "RUNNING", percentage := 50,
               message := "restarted", error_message := "", data_ref := "ref",
               created_at := 500, updated_at := 2000 }
    ∧ findRow (finish_task 2000 "t1" "FAILED" "boom" "err"
        [{ task_id := "t1", scheme_code := "SCM-WF01", status := "SUCCESS", percentage := 100,
           message := "Completed", error_message := "", data_ref := "ref",
           created_at := 500, updated_at := 1000 }]) "t1"
      = some (finishRowUpdate 2000 "FAILED" "boom" "err"
          { task_id := "t1", scheme_code := "SCM-WF01", status := "SUCCESS", percentage := 100,
            message := "Completed", error_message := "", data_ref := "ref",
            created_at := 500, updated_at := 1000 }) :=
  c2_store_overwrites_terminal 2000
    [{ task_id := "t1", scheme_code := "SCM-WF01", status := "SUCCESS", percentage := 100,
       message := "Completed", error_message := "", data_ref := "ref",
       created_at := 500, updated_at := 1000 }]
    "t1"
    { task_id := "t1", scheme_code := "SCM-WF01", status := "SUCCESS", percentage := 100,
      message := "Completed", error_message := "", data_ref := "ref",
      created_at := 500, updated_at := 1000 }
    50 "restarted" "RUNNING" "FAILED" "boom" "err" (by decide) (by decide)

/-- Claim C4 (counterexample): on a missing row,
`update_progress("t1", 50, "halfway", "RUNNING")` leaves a row carrying
percentage 0 and message "Initializing" — not the given values. -/
theorem c4_counterexample :
    (findRow (update_progress 1000 "t1" 50 "halfway" "RUNNING" []) "t1").map rowObservable
      = some ("RUNNING", 0, "Initializing", "") := by
  decide

/-- Claim C4 (amended): when no row exists for the task,
`update_progress` only calls `upsert_start(task_id, "", "")` and does
not retry the UPDATE, so the resulting row carries status RUNNING,
percentage 0 and message "Initializing" instead of the given pct, msg
and status. -/
theorem c4_missing_row_keeps_initializing
    (now : Int) (tid : String) (pct : Int) (msg stat : String) (store : Store)
    (h : findRow store tid = none) :
    update_progress now tid pct msg stat store = upsert_task_start now tid "" "" store
    ∧ findRow (update_progress now tid pct msg stat store) tid
        = some (startRow now tid "" "") := by
  have h1 : update_progress now tid pct msg stat store = upsert_task_start now tid "" "" store := by
    simp [update_progress, h]
  refine ⟨h1, ?_⟩
  rw [h1]
  simp only [upsert_task_start, h]
  rw [findRow_append_of_none _ _ _ h]
  simp [startRow]

/-- Witness for the amended Claim C4 on the empty store. -/
theorem c4_missing_row_keeps_initializing_witness :
    update_progress 1000 "t1" 50 "halfway" "RUNNING" [] = upsert_task_start 1000 "t1" "" "" []
    ∧ findRow (update_progress 1000 "t1" 50 "halfway" "RUNNING" []) "t1"
        = some (startRow 1000 "t1" "" "") :=
  c4_missing_row_keeps_initializing 1000 "t1" 50 "halfway" "RUNNING" [] (by decide)

/-- Claim C3 (counterexample): cancelling the completely unknown task
"ghost" (empty status map, no future, no managed process) is accepted
with status CANCEL_REQUESTED — not NOT_FOUND — and writes a row into the
Task Store (a RUNNING/"Initializing" row, via `update_progress`'s
missing-row branch). -/
theorem c3_counterexample :
    (cancel_task 1000
        { statusMap := [], queues := [], futures := [], procs := [], store := [], sinkCalls := [] }
        "ghost" false).snd
      = { accepted := true, message := "Cancel requested", status := "CANCEL_REQUESTED" }
    ∧ (cancel_task 1000
        { statusMap := [], queues := [], futures := [], procs := [], store := [], sinkCalls := [] }
        "ghost" false).fst.store
      = [startRow 1000 "ghost" "" ""] := by
  decide

/-- Claim C3 (amended): for a task unknown to the system (no status-map
entry, no registered future, no managed process), `cancel_task` falls
through to the cooperative fallback: it returns accepted=true with
status CANCEL_REQUESTED, marks CANCEL_REQUESTED in the status map, and
writes `update_progress(task_id, 0, "Cancel requested",
status=CANCEL_REQUESTED)` to the Task Store (which, the row being
missing, creates a RUNNING/"Initializing" row). -/
theorem c3_unknown_task_cancel
    (now : Int) (st : SysState) (tid : String) (force : Bool)
    (hstatus : getTaskEntry st.statusMap tid = emptyEntry)
    (hfut : lookupFuture st.futures tid = none)
    (hproc : lookupProc st.procs tid = none) :
    (cancel_task now st tid force).snd
        = { accepted := true, message := "Cancel requested", status := "CANCEL_REQUESTED" }
    ∧ (cancel_task now st tid force).fst.store
        = update_progress now tid 0 "Cancel requested" "CANCEL_REQUESTED" st.store
    ∧ (cancel_task now st tid force).fst.statusMap
        = request_cancel now st.statusMap tid "Cancel requested" := by
  have hup : pyUpper ((getTaskEntry st.statusMap tid).status.getD "") = "" := by
    rw [hstatus]; rfl
  simp [cancel_task, hup, hfut, pmIsRunning, hproc]

/-- Witness for the amended Claim C3 at a concrete empty system state. -/
theorem c3_unknown_task_cancel_witness :
    (cancel_task 1000
        { statusMap := [], queues := [], futures := [], procs := [], store := [], sinkCalls := [] }
        "ghost" true).snd
      = { accepted := true, message := "Cancel requested", status := "CANCEL_REQUESTED" }
    ∧ (cancel_task 1000
        { statusMap := [], queues := [], futures := [], procs := [], store := [], sinkCalls := [] }
        "ghost" true).fst.store
      = update_progress 1000 "ghost" 0 "Cancel requested" "CANCEL_REQUESTED" []
    ∧ (cancel_task 1000
        { statusMap := [], queues := [], futures := [], procs := [], store := [], sinkCalls := [] }
        "ghost" true).fst.statusMap
      = request_cancel 1000 [] "ghost" "Cancel requested" :=
  c3_unknown_task_cancel 1000
    { statusMap := [], queues := [], futures := [], procs := [], store := [], sinkCalls := [] }
    "ghost" true (by decide) (by decide) (by decide)

/-- Claim C5 (counterexample): for task "t1" the status map holds a known
terminal state, but a channel for "t1" already exists (created by
`ensure_queue` at dispatch, as the dispatcher always does), so
`register_watcher` returns that existing empty channel and emits no
synthetic event: the watcher observes no first message at all. -/
theorem c5_counterexample :
    getTaskEntry
        (mark_finished 900 (register_task 100 [] "t1" "SCM-WF01" "ref") "t1" "SUCCESS" "Completed")
        "t1" ≠ emptyEntry
    ∧ (register_watcher 2000
        (mark_finished 900 (register_task 100 [] "t1" "SCM-WF01" "ref") "t1" "SUCCESS" "Completed")
        (ensure_queue [] "t1").fst "t1").snd
      = [] := by
  decide

/-- Claim C5 (amended): when no channel exists yet for the task and the
status map knows it, `register_watcher` creates the channel and emits
exactly one synthetic event carrying the last-known percentage and
message; when a channel already exists it is returned unchanged with no
synthetic event. -/
theorem c5_fresh_watcher_synthetic_event
    (now : Int) (m : StatusMap) (qs : QueueMap) (tid : String)
    (hq : lookupQueue qs tid = none)
    (hs : getTaskEntry m tid ≠ emptyEntry) :
    (register_watcher now m qs tid).snd
        = [{ task_id := tid
             percentage := (getTaskEntry m tid).percentage.getD 0
             message := (getTaskEntry m tid).message.getD ""
             timestamp := now }]
    ∧ lookupQueue (register_watcher now m qs tid).fst tid
        = some (register_watcher now m qs tid).snd := by
  have hne : (getTaskEntry m tid == emptyEntry) = false := by
    simpa using hs
  simp [register_watcher, hq, hne, lookupQueue_setQueue]

/-- Witness for the amended Claim C5 at a concrete finished task. -/
theorem c5_fresh_watcher_synthetic_event_witness :
    (register_watcher 2000
        (mark_finished 900 (register_task 100 [] "t1" "SCM-WF01" "ref") "t1" "SUCCESS" "Completed")
        [] "t1").snd
      = [{ task_id := "t1"
           percentage :=
             (getTaskEntry
               (mark_finished 900 (register_task 100 [] "t1" "SCM-WF01" "ref") "t1" "SUCCESS" "Completed")
               "t1").percentage.getD 0
           message :=
             (getTaskEntry
               (mark_finished 900 (register_task 100 [] "t1" "SCM-WF01" "ref") "t1" "SUCCESS" "Completed")
               "t1").message.getD ""
           timestamp := 2000 }]
    ∧ lookupQueue
        (register_watcher 2000
          (mark_finished 900 (register_task 100 [] "t1" "SCM-WF01" "ref") "t1" "SUCCESS" "Completed")
          [] "t1").fst "t1"
      = some (register_watcher 2000
          (mark_finished 900 (register_task 100 [] "t1" "SCM-WF01" "ref") "t1" "SUCCESS" "Completed")
          [] "t1").snd :=
  c5_fresh_watcher_synthetic_event 2000
    (mark_finished 900 (register_task 100 [] "t1" "SCM-WF01" "ref") "t1" "SUCCESS" "Completed")
    [] "t1" (by decide) (by decide)

/-- Claim C6 (confirmed): over the lifecycle of one `ProcessManager.submit`
for a fresh task, the semaphore is released exactly once — whether the
subprocess spawn fails (the except-branch releases the acquired slot) or
the process starts and later exits naturally, cooperatively, by SIGTERM
or by SIGKILL (the monitor thread's finally-block releases it) — and the
semaphore value returns to its pre-submit level. -/
theorem c6_semaphore_released_exactly_once
    (st : PMState) (tid : String) (spawnOk : Bool) (k : ExitKind)
    (hshut : st.shutdown = false)
    (hfresh : lookupProc st.processes tid = none) :
    (pmLifecycle st tid spawnOk k).releases = st.releases + 1
    ∧ (pmLifecycle st tid spawnOk k).semValue = st.semValue := by
  cases spawnOk with
  | false =>
      refine ⟨?_, ?_⟩ <;> simp [pmLifecycle, pmSubmit, hshut]
  | true =>
      have hstep : pmLifecycle st tid true k
          = pmMonitorFinish
              (pmProcessExit
                { st with
                    semValue := st.semValue - 1
                    processes := st.processes ++ [(tid, { alive := true, cancel_requested := false })] }
                tid k) tid := by
        simp [pmLifecycle, pmSubmit, hshut]
      have hlook :
          lookupProc
            (pmProcessExit
              { st with
                  semValue := st.semValue - 1
                  processes := st.processes ++ [(tid, { alive := true, cancel_requested := false })] }
              tid k).processes tid
            = some { alive := false, cancel_requested := false } := by
        simp only [pmProcessExit]
        rw [lookupProc_exitMap]
        rw [lookupProc_append_of_none _ _ _ hfresh]
        simp [lookupProc]
      rw [hstep]
      unfold pmMonitorFinish
      rw [hlook]
      refine ⟨rfl, ?_⟩
      simp [pmProcessExit]

/-- Witness for Claim C6: a started process killed by SIGKILL releases the
slot exactly once from a concrete one-slot state. -/
theorem c6_semaphore_released_exactly_once_witness :
    (pmLifecycle { processes := [], semValue := 1, shutdown := false, releases := 0 }
        "t1" true ExitKind.sigkill).releases
      = 0 + 1
    ∧ (pmLifecycle { processes := [], semValue := 1, shutdown := false, releases := 0 }
        "t1" true ExitKind.sigkill).semValue
      = 1 :=
  c6_semaphore_released_exactly_once
    { processes := [], semValue := 1, shutdown := false, releases := 0 }
    "t1" true ExitKind.sigkill (by decide) (by decide)

/-- Claim C7 (counterexample): `upsert_start("t1", "SCM-WF01", "d")`
followed by `finish` leaves a row with scheme_code "SCM-WF01", while
`finish` alone on the missing row creates it with scheme_code "", so the
two stores differ even ignoring timestamps. -/
theorem c7_counterexample :
    storeEqIgnoringTimestamps
        (finish_task 2000 "t1" "SUCCESS" "Completed" ""
          (upsert_task_start 1000 "t1" "SCM-WF01" "d" []))
        (finish_task 2000 "t1" "SUCCESS" "Completed" "" [])
      = false
    ∧ (findRow (finish_task 2000 "t1" "SUCCESS" "Completed" ""
          (upsert_task_start 1000 "t1" "SCM-WF01" "d" [])) "t1").map TaskRow.scheme_code
      = some "SCM-WF01"
    ∧ (findRow (finish_task 2000 "t1" "SUCCESS" "Completed" "" []) "t1").map TaskRow.scheme_code
      = some "" := by
  decide

/-- Claim C7 (amended): on a missing row, `upsert_start(t, sc, dr); finish(t, s)`
and `finish(t, s)` alone agree on the lifecycle-observable columns
(status, percentage, message, error_message) of the resulting row; the
full records (ignoring timestamps) coincide exactly when the explicit
upsert used empty scheme_code and data_ref, which is what the
missing-row branch of `finish_task` itself passes — otherwise they
differ in scheme_code/data_ref. -/
theorem c7_upsert_then_finish
    (now1 now2 : Int) (tid sc dr status msg err : String) (store : Store)
    (h : findRow store tid = none) :
    (findRow (finish_task now2 tid status msg err (upsert_task_start now1 tid sc dr store)) tid).map rowObservable
        = (findRow (finish_task now2 tid status msg err store) tid).map rowObservable
    ∧ (sc = "" → dr = "" →
        storeEqIgnoringTimestamps
          (finish_task now2 tid status msg err (upsert_task_start now1 tid sc dr store))
          (finish_task now2 tid status msg err store)
        = true) := by
  have hup : upsert_task_start now1 tid sc dr store = store ++ [startRow now1 tid sc dr] := by
    simp [upsert_task_start, h]
  have hfindA : findRow (store ++ [startRow now1 tid sc dr]) tid
      = some (startRow now1 tid sc dr) := by
    rw [findRow_append_of_none _ _ _ h]; simp [startRow]
  have hfindB : findRow (store ++ [startRow now2 tid "" ""]) tid
      = some (startRow now2 tid "" "") := by
    rw [findRow_append_of_none _ _ _ h]; simp [startRow]
  have hL : finish_task now2 tid status msg err (upsert_task_start now1 tid sc dr store)
      = store ++ [finishRowUpdate now2 status msg err (startRow now1 tid sc dr)] := by
    rw [hup]
    simp only [finish_task, hfindA]
    rw [updateRow_append_of_none _ _ _ _ h]
    simp [startRow]
  have hR : finish_task now2 tid status msg err store
      = store ++ [finishRowUpdate now2 status msg err (startRow now2 tid "" "")] := by
    simp only [finish_task, h]
    have hupB : upsert_task_start now2 tid "" "" store = store ++ [startRow now2 tid "" ""] := by
      simp [upsert_task_start, h]
    rw [hupB, hfindB]
    rw [updateRow_append_of_none _ _ _ _ h]
    simp [startRow]
  constructor
  · rw [hL, hR]
    have h1 : findRow (store ++ [finishRowUpdate now2 status msg err (startRow now1 tid sc dr)]) tid
        = some (finishRowUpdate now2 status msg err (startRow now1 tid sc dr)) := by
      rw [findRow_append_of_none _ _ _ h]; simp [finishRowUpdate, startRow]
    have h2 : findRow (store ++ [finishRowUpdate now2 status msg err (startRow now2 tid "" "")]) tid
        = some (finishRowUpdate now2 status msg err (startRow now2 tid "" "")) := by
      rw [findRow_append_of_none _ _ _ h]; simp [finishRowUpdate, startRow]
    rw [h1, h2]
    rfl
  · intro hsc hdr
    subst hsc hdr
    rw [hL, hR, storeEqIgnoringTimestamps_append_pair]
    simp [rowEqIgnoringTimestamps, finishRowUpdate, startRow]

/-- Witness for the amended Claim C7 at concrete arguments. -/
theorem c7_upsert_then_finish_witness :
    ((findRow (finish_task 2000 "t1" "SUCCESS" "Completed" ""
          (upsert_task_start 1000 "t1" "" "" [])) "t1").map rowObservable
        = (findRow (finish_task 2000 "t1" "SUCCESS" "Completed" "" []) "t1").map rowObservable)
    ∧ ("" = "" → "" = "" →
        storeEqIgnoringTimestamps
          (finish_task 2000 "t1" "SUCCESS" "Completed" ""
            (upsert_task_start 1000 "t1" "" "" []))
          (finish_task 2000 "t1" "SUCCESS" "Completed" "" [])
        = true) :=
  c7_upsert_then_finish 1000 2000 "t1" "" "" "SUCCESS" "Completed" "" [] (by decide)

/-- Claim C8 (confirmed): for every event the DB writer dequeues, a
failing store application is retried; after 3 failed attempts the event
is dropped with the failure counter incremented by exactly one and the
store untouched; an application that succeeds on attempt `k < 3` (after
`k` failures) applies the event to the store and increments the success
counter by exactly one; and the writer then continues with the next
queued event. -/
theorem c8_db_writer_retry_and_counters
    (now : Int) (e : DbEvent) (raises : Nat → Bool) (st : WriterState)
    (item : QueueItem) (f : Nat → Bool) (rest : List (QueueItem × (Nat → Bool))) :
    (raises 0 = true → raises 1 = true → raises 2 = true →
      handleQueueItem now raises st (QueueItem.ev e)
        = { st with failCount := st.failCount + 1, lastError := "persist error" })
    ∧ (∀ k, k < 3 → (∀ j, j < k → raises j = true) → raises k = false →
        handleQueueItem now raises st (QueueItem.ev e)
          = { st with store := applyDbEvent now e st.store, successCount := st.successCount + 1 })
    ∧ runDbWriter now ((item, f) :: rest) st
        = runDbWriter now rest (handleQueueItem now f st item) := by
  refine ⟨?_, ?_, rfl⟩
  · intro h0 h1 h2
    simp [handleQueueItem, handleDbEventGo, h0, h1, h2]
  · intro k hk hprev hsucc
    interval_cases k
    · simp [handleQueueItem, handleDbEventGo, hsucc]
    · have h0 : raises 0 = true := hprev 0 (by omega)
      simp [handleQueueItem, handleDbEventGo, h0, hsucc]
    · have h0 : raises 0 = true := hprev 0 (by omega)
      have h1 : raises 1 = true := hprev 1 (by omega)
      simp [handleQueueItem, handleDbEventGo, h0, h1, hsucc]

/-- Witness for Claim C8: an always-failing event is dropped with the
failure counter at 1, and an event failing once then succeeding is
applied with the success counter at 1. -/
theorem c8_db_writer_retry_and_counters_witness :
    handleQueueItem 0 (fun _ => true) { store := [], successCount := 0, failCount := 0, lastError := "" }
        (QueueItem.ev { op := some "finish", task_id := some "t1" })
      = { store := [], successCount := 0, failCount := 0 + 1, lastError := "persist error" }
    ∧ handleQueueItem 0 (fun i => i == 0) { store := [], successCount := 0, failCount := 0, lastError := "" }
        (QueueItem.ev { op := some "finish", task_id := some "t1" })
      = { store := applyDbEvent 0 { op := some "finish", task_id := some "t1" } [],
          successCount := 0 + 1, failCount := 0, lastError := "" } :=
  ⟨(c8_db_writer_retry_and_counters 0 { op := some "finish", task_id := some "t1" }
      (fun _ => true) { store := [], successCount := 0, failCount := 0, lastError := "" }
      QueueItem.notDict (fun _ => false) []).1 rfl rfl rfl,
   (c8_db_writer_retry_and_counters 0 { op := some "finish", task_id := some "t1" }
      (fun i => i == 0) { store := [], successCount := 0, failCount := 0, lastError := "" }
      QueueItem.notDict (fun _ => false) []).2.1 1 (by omega)
      (fun j hj => by interval_cases j; rfl) rfl⟩

/-- Claim C9 (confirmed): `ProgressManager.record_progress` is a no-op
when the in-memory entry already holds a terminal status, and when the
entry holds CANCEL_REQUESTED it updates percentage and message while
keeping the status CANCEL_REQUESTED rather than writing RUNNING. -/
theorem c9_record_progress_guards
    (now : Int) (m : StatusMap) (tid : String) (pct : Int) (msg : String) :
    (isTerminalOpt (getTaskEntry m tid).status = true →
      record_progress now m tid pct msg = m)
    ∧ ((getTaskEntry m tid).status = some "CANCEL_REQUESTED" →
      getTaskEntry (record_progress now m tid pct msg) tid
        = { getTaskEntry m tid with
              percentage := some pct
              message := some msg
              status := some "CANCEL_REQUESTED"
              updated_at := some now }) := by
  constructor
  · intro h
    simp [record_progress, h]
  · intro h
    have hcr : isTerminalOpt (some "CANCEL_REQUESTED") = false := by rfl
    simp [record_progress, h, hcr, getTaskEntry_setTaskEntry]

/-- Witness for Claim C9: a SUCCESS entry is left untouched and a
CANCEL_REQUESTED entry keeps its status while progress fields update. -/
theorem c9_record_progress_guards_witness :
    record_progress 2000
        (mark_finished 900 (register_task 100 [] "t1" "SCM-WF01" "ref") "t1" "SUCCESS" "Completed")
        "t1" 70 "late"
      = mark_finished 900 (register_task 100 [] "t1" "SCM-WF01" "ref") "t1" "SUCCESS" "Completed"
    ∧ getTaskEntry
        (record_progress 2000
          (request_cancel 900 (register_task 100 [] "t2" "SCM-WF01" "ref") "t2" "Cancel requested")
          "t2" 70 "late") "t2"
      = { getTaskEntry
            (request_cancel 900 (register_task 100 [] "t2" "SCM-WF01" "ref") "t2" "Cancel requested")
            "t2" with
          percentage := some 70
          message := some "late"
          status := some "CANCEL_REQUESTED"
          updated_at := some 2000 } :=
  ⟨(c9_record_progress_guards 2000
      (mark_finished 900 (register_task 100 [] "t1" "SCM-WF01" "ref") "t1" "SUCCESS" "Completed")
      "t1" 70 "late").1 (by decide),
   (c9_record_progress_guards 2000
      (request_cancel 900 (register_task 100 [] "t2" "SCM-WF01" "ref") "t2" "Cancel requested")
      "t2" 70 "late").2 (by decide)⟩

/-- Claim C10 (counterexample): `send_result` has two statements outside
every try-block and raises out of the function on either — a failing
`result_dir.mkdir` (rpc_client.py line 64) aborts the call before the
local write, and a failing serialization of a present `data` for the
wire payload (`result_json = json.dumps(data, ...)`, line 87) escapes
after it. -/
theorem c10_counterexample :
    (send_result false false true false false false).raisedMkdir = true
    ∧ (send_result false false true false false false).wroteFile = false
    ∧ (send_result false true false false true false).raisedSerialize = true := by
  decide

/-- Claim C10 (amended): `send_result` returns normally except when the
unprotected `result_dir.mkdir` fails or when serializing a present
`data` for the wire payload fails: a failure of the local artifact
write is caught and logged, a failure of remote delivery is caught and
logged, and with no remote stub configured the call returns right after
the local write and payload construction without attempting delivery. -/
theorem c10_send_result_no_raise
    (hasStub dataPresent mkdirRaises writeRaises dataSerRaises remoteRaises : Bool)
    (hm : mkdirRaises = false)
    (h : (dataPresent && dataSerRaises) = false) :
    (send_result hasStub dataPresent mkdirRaises writeRaises dataSerRaises remoteRaises).raisedMkdir = false
    ∧ (send_result hasStub dataPresent mkdirRaises writeRaises dataSerRaises remoteRaises).raisedSerialize = false
    ∧ (send_result hasStub dataPresent mkdirRaises writeRaises dataSerRaises remoteRaises).loggedWriteError = writeRaises
    ∧ (hasStub = false →
        (send_result hasStub dataPresent mkdirRaises writeRaises dataSerRaises remoteRaises).attemptedRemote = false)
    ∧ (hasStub = true →
        (send_result hasStub dataPresent mkdirRaises writeRaises dataSerRaises remoteRaises).attemptedRemote = true
        ∧ (send_result hasStub dataPresent mkdirRaises writeRaises dataSerRaises remoteRaises).loggedRemoteError
            = remoteRaises) := by
  subst hm
  cases hasStub <;> cases dataPresent <;> cases writeRaises <;>
    cases dataSerRaises <;> cases remoteRaises <;> simp_all [send_result]

/-- Witness for the amended Claim C10: with the directory created and the
data serializable, a failing local write and a failing remote delivery
are both absorbed. -/
theorem c10_send_result_no_raise_witness :
    (send_result true true false true false true).raisedMkdir = false
    ∧ (send_result true true false true false true).raisedSerialize = false
    ∧ (send_result true true false true false true).loggedWriteError = true
    ∧ (true = false → (send_result true true false true false true).attemptedRemote = false)
    ∧ (true = true →
        (send_result true true false true false true).attemptedRemote = true
        ∧ (send_result true true false true false true).loggedRemoteError = true) :=
  c10_send_result_no_raise true true false true false true (by decide) (by decide)

end AlgoService
